import Mathlib

/-
  Verification of the natural-language specification of
  MinimalVoiceAgent/python/ad_detector.py against the source.

  The script is a single linear Python program: it loads a JSON settings
  file, loads a phrase-grounding vision model, and in either "test" mode
  (a directory of images) or "live" mode (a polling loop over screen
  captures) runs a detection filter over the model output, clicks the
  detected center in live mode, and verifies the click.

  Shallow embedding choices:
  - The grounding model, screen capture and image loading are opaque
    external services; each invocation of the model is modelled by its
    outcome, an `Except String GroundingOutput`: `Except.error` stands for
    any exception raised inside the `try` block of `detect_skip_button`
    (model error, malformed output), `Except.ok` for a parsed
    (bboxes, labels) result.
  - Bounding-box coordinates are integers (`Int`); the Python code
    receives floats from the model but every claim is about the integer
    arithmetic (area, midpoint with `int(...)` truncation toward zero).
  - Wall-clock time is an idealized `Nat` number of seconds in which
    capture and inference are instantaneous and `time.sleep(n)` advances
    time by exactly `n`; this is the model the spec's timing bound
    prescribes.
  - String operations are carried out on `List Char` (via `String.toList`)
    so that every definition evaluates by kernel reduction.
-/

namespace AdDetector

/-- Bounding box `(x1, y1, x2, y2)` in image pixel coordinates, as produced
by the grounding model (the Python code indexes it as `box[0] .. box[3]`). -/
structure BBox where
  x1 : Int
  y1 : Int
  x2 : Int
  y2 : Int
deriving DecidableEq, Repr

/-- Constant `MAX_BBOX_AREA = 50000` from the source. -/
def MAX_BBOX_AREA : Int := 50000

/-- Area of a box exactly as computed in `detect_skip_button`:
`(box[2] - box[0]) * (box[3] - box[1])`. -/
def bboxArea (b : BBox) : Int := (b.x2 - b.x1) * (b.y2 - b.y1)

/-- Center point as computed in `detect_skip_button`:
`(int((box[0] + box[2]) / 2), int((box[1] + box[3]) / 2))`; Python `int()`
truncates toward zero, which is `Int.tdiv`. -/
def bboxCenter (b : BBox) : Int × Int :=
  (Int.tdiv (b.x1 + b.x2) 2, Int.tdiv (b.y1 + b.y2) 2)

/-- ASCII whitespace stripped by Python `str.strip()` (the labels produced
by the model are ASCII text; the unicode-whitespace cases do not arise). -/
def isStripChar (c : Char) : Bool :=
  c == ' ' || c == '\t' || c == '\n' || c == '\r' || c == '\x0b' || c == '\x0c'

/-- Does `hay` start with `needle`? (helper for substring search). -/
def charsStartWith : List Char → List Char → Bool
  | [], _ => true
  | _ :: _, [] => false
  | c :: cs, d :: ds => c == d && charsStartWith cs ds

/-- Does the second list contain the first as a contiguous sublist? -/
def charsContainSub (needle : List Char) : List Char → Bool
  | [] => needle.isEmpty
  | c :: cs => charsStartWith needle (c :: cs) || charsContainSub needle cs

/-- Python `label.strip()`: drop leading and trailing whitespace. -/
def pyStrip (s : String) : List Char :=
  ((s.toList.dropWhile isStripChar).reverse.dropWhile isStripChar).reverse

/-- Python `re.search(r"(?i)skip", s)` viewed as a Boolean: the regex
`(?i)skip` matches iff `s` contains `"skip"` as a case-insensitive
substring. The argument is the already-stripped label. -/
def regexSearchSkip (stripped : List Char) : Bool :=
  charsContainSub "skip".toList (stripped.map Char.toLower)

/-- Constant `SKIP_AD_PATTERNS = [r"(?i)skip"]` from the source: a list
with the single pattern, each pattern embedded as its match function. -/
def SKIP_AD_PATTERNS : List (List Char → Bool) := [regexSearchSkip]

/-- Parsed output of the grounding call: the `bboxes` and `labels` lists
extracted from the post-processed generation (the Python code reads
`grounding_result.get('bboxes', [])` and `.get('labels', [])`). -/
structure GroundingOutput where
  bboxes : List BBox
  labels : List String
deriving Repr

/-- The inner `for pattern in SKIP_AD_PATTERNS` loop of
`detect_skip_button`, for one `(box, label)` pair whose label has already
been stripped. A pattern that matches an oversized box executes `continue`,
which moves to the NEXT PATTERN (not the next pair); a non-matching pattern
also moves to the next pattern; a matching pattern with admissible area
returns the `(center, box)` detection. -/
def scanPatterns (box : BBox) (stripped : List Char) :
    List (List Char → Bool) → Option ((Int × Int) × BBox)
  | [] => none
  | p :: rest =>
    if p stripped then
      if bboxArea box > MAX_BBOX_AREA then scanPatterns box stripped rest
      else some (bboxCenter box, box)
    else scanPatterns box stripped rest

/-- The outer `for box, label in zip(bboxes, labels)` loop of
`detect_skip_button`: the first pair for which the pattern loop returns a
detection wins; otherwise scanning continues with the remaining pairs. -/
def scanPairs : List (BBox × String) → Option ((Int × Int) × BBox)
  | [] => none
  | (box, label) :: rest =>
    match scanPatterns box (pyStrip label) SKIP_AD_PATTERNS with
    | some r => some r
    | none => scanPairs rest

/-- `detect_skip_button` from the source. `grounding_caption` is the
configured caption; in the source it only parametrizes the prompt string
sent to the opaque model (whose answer is the `outcome` argument here) and
is never consulted by the filter itself. The whole body runs inside
`try: ... except: return None, None`, so an internal failure
(`Except.error`) yields the no-detection result `none`; `some (center, box)`
models the `(center, detected_bbox)` return value and `none` models
`(None, None)`. -/
def detect_skip_button (grounding_caption : String)
    (outcome : Except String GroundingOutput) : Option ((Int × Int) × BBox) :=
  match outcome with
  | Except.error _ => none
  | Except.ok out => scanPairs (out.bboxes.zip out.labels)

/-- Case-insensitive substring test between whole strings: does `hay`
contain `needle` up to case? Used only to state the spec's claim that
label matching is performed against the configured caption. -/
def containsCaseInsensitive (hay needle : String) : Bool :=
  charsContainSub (needle.toList.map Char.toLower) (hay.toList.map Char.toLower)

/-- Spec-side acceptability of one `(box, label)` pair: the stripped label
matches the skip pattern and the area does not exceed the maximum. -/
def acceptablePair (p : BBox × String) : Bool :=
  regexSearchSkip (pyStrip p.2) && decide (bboxArea p.1 ≤ MAX_BBOX_AREA)

/-- Spec-side selection ("first acceptable match wins"): the first pair in
model output order that is acceptable, paired with its center. This is the
§4.4 description of the filter, to be compared with `detect_skip_button`. -/
def detect_spec (pairs : List (BBox × String)) : Option ((Int × Int) × BBox) :=
  (pairs.find? acceptablePair).map (fun p => (bboxCenter p.1, p.1))

/-- `verify_skip_success` from the source, applied to the outcome of the
grounding call made on the post-click re-capture: `success = bbox is None`,
status `"success"`/`"partial"` and the corresponding message. -/
def verify_skip_success (grounding_caption : String)
    (outcome : Except String GroundingOutput) : String × String :=
  match detect_skip_button grounding_caption outcome with
  | none => ("success", "Ad skipped successfully!")
  | some _ =>
    ("partial",
     "Clicked, but \x27Skip\x27 button may still be present—manual check needed.")

/-- State of the settings file as `load_settings` can observe it: missing,
present but not valid JSON, or parsed JSON with the value of the
`grounding_caption` key (`none` when the key is absent). -/
inductive SettingsFile where
  | missing
  | invalidJson
  | parsed (grounding_caption : Option String)
deriving DecidableEq, Repr

/-- Validated settings: the single required field. -/
structure Settings where
  grounding_caption : String
deriving DecidableEq, Repr

/-- `load_settings` from the source: `None` when the file is missing, when
`json.load` raises, or when `settings.get('grounding_caption')` is falsy
(key absent or empty string); otherwise the validated settings. -/
def load_settings : SettingsFile → Option Settings
  | SettingsFile.missing => none
  | SettingsFile.invalidJson => none
  | SettingsFile.parsed none => none
  | SettingsFile.parsed (some c) => if c = "" then none else some ⟨c⟩

/-- Outcome of the configuration phase of `main`: `exitCode1` models
`sys.exit(1)` taken right after `load_settings` returns `None`, before the
model-loading `try` block is entered; `proceed s` models continuing into
model load with the validated settings. -/
inductive ConfigPhase where
  | exitCode1
  | proceed (s : Settings)
deriving DecidableEq, Repr

/-- The configuration phase of `main`: `settings = load_settings()`;
`if not settings: sys.exit(1)`. -/
def mainConfigPhase (f : SettingsFile) : ConfigPhase :=
  match load_settings f with
  | none => ConfigPhase.exitCode1
  | some s => ConfigPhase.proceed s

/-- How the `while` loop of `run_live_mode` exits: `found t pos box` when
the detection at elapsed time `t` succeeded (loop `break`), `timedOut t`
when the loop condition `elapsed < max_poll_seconds` first failed at
elapsed time `t`. -/
inductive LoopExit where
  | found (t : Nat) (position : Int × Int) (box : BBox)
  | timedOut (t : Nat)
deriving DecidableEq, Repr

/-- One capture-and-detect step at elapsed time `t`: the screen content is
abstracted by `ground`, giving the grounding outcome of a capture made at
time `t`. -/
def detectAt (caption : String) (ground : Nat → Except String GroundingOutput)
    (t : Nat) : Option ((Int × Int) × BBox) :=
  detect_skip_button caption (ground t)

/-- The fixed `time.sleep(2)` at the start of `verify_skip_success`. -/
def VERIFICATION_DELAY : Nat := 2

/-- The polling `while (time.time() - start_time) < max_poll_seconds` loop
of `run_live_mode`, at elapsed time `t`: capture and detect (instantaneous
in the time model); on detection `break` with the position; otherwise
`time.sleep(interval)` and re-test the condition. `hpos` records that the
interval is a positive whole number of seconds, so elapsed time strictly
grows between polls. -/
def pollLoop (caption : String) (ground : Nat → Except String GroundingOutput)
    (interval maxPoll : Nat) (hpos : 0 < interval) (t : Nat) : LoopExit :=
  if h : t < maxPoll then
    match detectAt caption ground t with
    | some (pos, box) => LoopExit.found t pos box
    | none => pollLoop caption ground interval maxPoll hpos (t + interval)
  else
    LoopExit.timedOut t
termination_by maxPoll - t
decreasing_by omega

/-- The JSON object printed by `run_live_mode`: status, message and the
`clicked_at` key (`none` models the key being absent in the timeout
dictionary). -/
structure LiveResult where
  status : String
  message : String
  clicked_at : Option (Int × Int)
deriving DecidableEq, Repr

/-- Observable behaviour of one `run_live_mode` invocation: the clicks
issued by `skip_ad_action` in order, the returned result object, and the
elapsed time at which the function returns. -/
structure LiveRun where
  clicks : List (Int × Int)
  result : LiveResult
  endTime : Nat
deriving Repr

/-- `run_live_mode` from the source: poll until detection or timeout; on
timeout return the partial result with no click; on detection click once at
the detected center, then verify after `VERIFICATION_DELAY` seconds (the
verification re-captures the screen, i.e. consults `ground` at time
`t + VERIFICATION_DELAY`). -/
def run_live_mode (caption : String) (ground : Nat → Except String GroundingOutput)
    (interval maxPoll : Nat) (hpos : 0 < interval) : LiveRun :=
  match pollLoop caption ground interval maxPoll hpos 0 with
  | LoopExit.timedOut t =>
    ⟨[],
     ⟨"partial", "No skip ad button detected within time limit. Try again?", none⟩,
     t⟩
  | LoopExit.found t pos _box =>
    let sm := verify_skip_success caption (ground (t + VERIFICATION_DELAY))
    ⟨[pos], ⟨sm.1, sm.2, some pos⟩, t + VERIFICATION_DELAY⟩

/-- Does a directory entry match the glob pattern `*.png` / `*.jpg`? The
`*` wildcard of `glob.glob` does not match a leading dot. -/
def matchesGlob (ext : List Char) (f : String) : Bool :=
  charsStartWith ext.reverse f.toList.reverse && !charsStartWith ['.'] f.toList

/-- The file enumeration of `run_test_mode`:
`glob.glob(test_dir/"*.png") + glob.glob(test_dir/"*.jpg")`, over the given
non-recursive directory listing. -/
def enumerateImageFiles (listing : List String) : List String :=
  listing.filter (matchesGlob ".png".toList) ++ listing.filter (matchesGlob ".jpg".toList)

/-- One per-file record accumulated by `run_test_mode`:
`{"file": ..., "detected": bbox is not None, "position": ..., "bbox": ...}`. -/
structure TestRecord where
  file : String
  detected : Bool
  position : Option (Int × Int)
  bbox : Option BBox
deriving DecidableEq, Repr

/-- The record built for one image file given its detection result. -/
def testRecordFor (f : String) (d : Option ((Int × Int) × BBox)) : TestRecord :=
  match d with
  | some (pos, box) => ⟨f, true, some pos, some box⟩
  | none => ⟨f, false, none, none⟩

/-- `run_test_mode` from the source: enumerate the image files, run the
detection on each, accumulate one record per file, and report the aggregate
"N/total detections" counts (modelled as the pair of numbers the message
interpolates: `sum(1 for r in results if r['detected'])` and
`len(results)`). `groundFile` gives the grounding outcome for each file's
image. -/
def run_test_mode (caption : String)
    (groundFile : String → Except String GroundingOutput)
    (listing : List String) : List TestRecord × Nat × Nat :=
  let results := (enumerateImageFiles listing).map
    (fun f => testRecordFor f (detect_skip_button caption (groundFile f)))
  (results, (results.filter (fun r => r.detected)).length, results.length)

/-- A small admissible box (area 100) used as a concrete model input. -/
def sampleBox : BBox := ⟨0, 0, 10, 10⟩

/-- A concrete screen history whose grounding call always fails. -/
def groundNever : Nat → Except String GroundingOutput :=
  fun _ => Except.error "model error"

/-- A concrete screen history: a skip button at time 0, then nothing. -/
def groundAtZero : Nat → Except String GroundingOutput :=
  fun t => if t = 0 then Except.ok ⟨[sampleBox], ["Skip"]⟩ else Except.error "gone"

/-- A concrete per-file grounding outcome for a three-image directory. -/
def groundFileSample : String → Except String GroundingOutput :=
  fun f => if f = "c.png" then Except.ok ⟨[], []⟩
           else Except.ok ⟨[sampleBox], ["Skip"]⟩

/-! Helper lemmas about the detection filter. -/

/-- The pattern loop over the singleton `SKIP_AD_PATTERNS` list reduces to
one acceptability test. -/
theorem scanPatterns_single (box : BBox) (stripped : List Char) :
    scanPatterns box stripped SKIP_AD_PATTERNS =
      if regexSearchSkip stripped && decide (bboxArea box ≤ MAX_BBOX_AREA) then
        some (bboxCenter box, box)
      else none := by
  simp only [SKIP_AD_PATTERNS, scanPatterns]
  cases h1 : regexSearchSkip stripped with
  | false => simp [scanPatterns]
  | true =>
    rcases le_or_lt (bboxArea box) MAX_BBOX_AREA with h2 | h2
    · simp [not_lt.mpr h2, h2]
    · simp [h2, not_le.mpr h2, scanPatterns]

/-- The pair loop is first-acceptable-match selection. -/
theorem scanPairs_eq_find (l : List (BBox × String)) :
    scanPairs l = (l.find? acceptablePair).map (fun p => (bboxCenter p.1, p.1)) := by
  induction l with
  | nil => rfl
  | cons hd tl ih =>
    obtain ⟨box, label⟩ := hd
    rw [scanPairs, scanPatterns_single]
    have hacc : (regexSearchSkip (pyStrip label) &&
        decide (bboxArea box ≤ MAX_BBOX_AREA)) = acceptablePair (box, label) := rfl
    rw [hacc]
    cases h : acceptablePair (box, label) with
    | false => simp [List.find?, h, ih]
    | true => simp [List.find?, h]

/-- Claim C1: whenever the detection filter selects a box, that box came
from the grounding output paired with a label whose stripped form matches
the skip pattern, and the box's area `(x2-x1)*(y2-y1)` does not exceed
`MAX_BBOX_AREA = 50000`; no box violating either condition is ever
selected, regardless of its position in the model output. -/
theorem claim1_filter_soundness (caption : String)
    (outcome : Except String GroundingOutput) (center : Int × Int) (box : BBox)
    (h : detect_skip_button caption outcome = some (center, box)) :
    bboxArea box ≤ MAX_BBOX_AREA ∧
    ∃ out label, outcome = Except.ok out ∧
      (box, label) ∈ out.bboxes.zip out.labels ∧
      regexSearchSkip (pyStrip label) = true := by
  match outcome with
  | Except.error e => simp [detect_skip_button] at h
  | Except.ok out =>
    rw [detect_skip_button, scanPairs_eq_find] at h
    rcases hfind : (out.bboxes.zip out.labels).find? acceptablePair with _ | ⟨b, lab⟩
    · rw [hfind] at h
      exact absurd h (by simp)
    · rw [hfind] at h
      have hmem := List.mem_of_find?_eq_some hfind
      have hp := List.find?_some hfind
      have hbb : bboxCenter b = center ∧ b = box := by simpa using h
      obtain ⟨-, rfl⟩ := hbb
      rw [acceptablePair, Bool.and_eq_true, decide_eq_true_iff] at hp
      exact ⟨hp.2, out, lab, rfl, hmem, hp.1⟩

/-- Witness for C1 at a concrete grounding output containing one admissible
skip box. -/
theorem claim1_filter_soundness_witness :
    bboxArea sampleBox ≤ MAX_BBOX_AREA ∧
    ∃ out label,
      (Except.ok ⟨[sampleBox], ["Skip"]⟩ : Except String GroundingOutput) =
        Except.ok out ∧
      (sampleBox, label) ∈ out.bboxes.zip out.labels ∧
      regexSearchSkip (pyStrip label) = true :=
  claim1_filter_soundness "Skip" (Except.ok ⟨[sampleBox], ["Skip"]⟩)
    (5, 5) sampleBox rfl

/-- Counterexample to claim C2 as stated: with configured caption
`"Close"`, the label `"skip"` does not contain the caption as a
case-insensitive substring, yet the filter selects its box: label matching
is performed against the hardcoded `SKIP_AD_PATTERNS`, not against the
configured caption. -/
theorem claim2_counterexample :
    containsCaseInsensitive "skip" "Close" = false ∧
    detect_skip_button "Close" (Except.ok ⟨[⟨0, 0, 10, 10⟩], ["skip"]⟩) =
      some ((5, 5), ⟨0, 0, 10, 10⟩) :=
  ⟨rfl, rfl⟩

/-- Claim C2 (amended): label matching is performed against the hardcoded
pattern list `SKIP_AD_PATTERNS = [r"(?i)skip"]`, not against the
configured caption; for every grounding output in which no stripped label
contains `"skip"` case-insensitively, the filter selects nothing,
whatever the configured caption is. -/
theorem claim2_amended_pattern_match (caption : String) (out : GroundingOutput)
    (h : ∀ p ∈ out.bboxes.zip out.labels, regexSearchSkip (pyStrip p.2) = false) :
    detect_skip_button caption (Except.ok out) = none := by
  rw [detect_skip_button, scanPairs_eq_find]
  have : (out.bboxes.zip out.labels).find? acceptablePair = none := by
    rw [List.find?_eq_none]
    intro p hp
    simp [acceptablePair, h p hp]
  rw [this]
  rfl

/-- Witness for the amended C2: a non-matching label is never selected. -/
theorem claim2_amended_pattern_match_witness :
    detect_skip_button "Skip" (Except.ok ⟨[sampleBox], ["Close"]⟩) = none :=
  claim2_amended_pattern_match "Skip" ⟨[sampleBox], ["Close"]⟩ (by decide)

/-- Claim C3: on a successful grounding call the filter equals the
first-acceptable-match specification: the first `(box, label)` pair in
model output order whose stripped label matches the pattern and whose area
is at most the maximum wins and is returned with the truncated integer
midpoint `((x1+x2)/2, (y1+y2)/2)`; matching-but-oversized pairs are
skipped and scanning continues; if no pair qualifies the result is no
detection. -/
theorem claim3_first_acceptable_wins (caption : String) (out : GroundingOutput) :
    detect_skip_button caption (Except.ok out) =
      detect_spec (out.bboxes.zip out.labels) := by
  rw [detect_skip_button, detect_spec, scanPairs_eq_find]

/-- Claim C4: an internal failure of the detection call (any exception
raised inside its `try` block: model error, malformed output) yields the
no-detection result `(None, None)`; the caller always receives a valid
optional result, never an exception. -/
theorem claim4_errors_become_none (caption : String) (e : String) :
    detect_skip_button caption (Except.error e) = none := rfl

/-- Claim C7: when the settings file is missing, is not valid JSON, or its
`grounding_caption` field is absent or empty, `main` exits with code 1
during the configuration phase, before any attempt to load the model. -/
theorem claim7_config_errors_fatal (f : SettingsFile)
    (h : f = SettingsFile.missing ∨ f = SettingsFile.invalidJson ∨
         f = SettingsFile.parsed none ∨ f = SettingsFile.parsed (some "")) :
    mainConfigPhase f = ConfigPhase.exitCode1 := by
  rcases h with rfl | rfl | rfl | rfl <;> rfl

/-- Witness for C7: the missing-file case exits with code 1. -/
theorem claim7_config_errors_fatal_witness :
    mainConfigPhase SettingsFile.missing = ConfigPhase.exitCode1 :=
  claim7_config_errors_fatal SettingsFile.missing (Or.inl rfl)

/-- Claim C10: when the grounding call made during post-click verification
itself fails internally, the swallowed exception is converted to
no-detection and the verifier classifies the run as success; an inference
error at verification time is indistinguishable from an absent button. -/
theorem claim10_verify_error_is_success (caption : String) (e : String) :
    verify_skip_success caption (Except.error e) =
      ("success", "Ad skipped successfully!") := rfl

/-! Helper lemmas about the live polling loop. -/

/-- If the polling loop exits with a detection, the detection really
occurred at an elapsed time strictly inside the polling window. -/
theorem pollLoop_found_inv (caption : String)
    (ground : Nat → Except String GroundingOutput) (interval maxPoll : Nat)
    (hpos : 0 < interval) (t0 t : Nat) (pos : Int × Int) (box : BBox)
    (h : pollLoop caption ground interval maxPoll hpos t0 = LoopExit.found t pos box) :
    t < maxPoll ∧ detectAt caption ground t = some (pos, box) := by
  rw [pollLoop] at h
  split at h
  next hlt =>
    cases hd : detectAt caption ground t0 with
    | none =>
      rw [hd] at h
      exact pollLoop_found_inv caption ground interval maxPoll hpos (t0 + interval)
        t pos box h
    | some pb =>
      obtain ⟨pos0, box0⟩ := pb
      rw [hd] at h
      simp only [LoopExit.found.injEq] at h
      obtain ⟨rfl, rfl, rfl⟩ := h
      exact ⟨hlt, hd⟩
  next => simp at h
termination_by maxPoll - t0
decreasing_by omega

/-- If the polling loop exits by timeout starting from an elapsed time below
`maxPoll + interval`, the exit time is at least `maxPoll` (the loop
condition failed) and below `maxPoll + interval` (at most one full sleep
past the last admitted poll). -/
theorem pollLoop_timedOut_inv (caption : String)
    (ground : Nat → Except String GroundingOutput) (interval maxPoll : Nat)
    (hpos : 0 < interval) (t0 t : Nat)
    (hb : t0 < maxPoll + interval)
    (h : pollLoop caption ground interval maxPoll hpos t0 = LoopExit.timedOut t) :
    maxPoll ≤ t ∧ t < maxPoll + interval := by
  rw [pollLoop] at h
  split at h
  next hlt =>
    cases hd : detectAt caption ground t0 with
    | none =>
      rw [hd] at h
      exact pollLoop_timedOut_inv caption ground interval maxPoll hpos
        (t0 + interval) t (by omega) h
    | some pb =>
      obtain ⟨pos0, box0⟩ := pb
      rw [hd] at h
      simp at h
  next hge =>
    simp only [LoopExit.timedOut.injEq] at h
    omega
termination_by maxPoll - t0
decreasing_by omega

/-- Claim C5: in every live-mode run at most one click is issued, and every
issued click corresponds to a non-null detection made at some poll inside
the polling window, at the detected center. -/
theorem claim5_at_most_one_click (caption : String)
    (ground : Nat → Except String GroundingOutput) (interval maxPoll : Nat)
    (hpos : 0 < interval) :
    (run_live_mode caption ground interval maxPoll hpos).clicks.length ≤ 1 ∧
    (∀ pos ∈ (run_live_mode caption ground interval maxPoll hpos).clicks,
      ∃ t box, t < maxPoll ∧ detectAt caption ground t = some (pos, box)) ∧
    (∀ t, pollLoop caption ground interval maxPoll hpos 0 = LoopExit.timedOut t →
      (run_live_mode caption ground interval maxPoll hpos).clicks = []) := by
  refine ⟨?_, ?_, ?_⟩
  · rw [run_live_mode]
    cases hp : pollLoop caption ground interval maxPoll hpos 0 with
    | timedOut t => simp
    | found t pos box => simp
  · rw [run_live_mode]
    cases hp : pollLoop caption ground interval maxPoll hpos 0 with
    | timedOut t => simp
    | found t pos box =>
      simp only [List.mem_singleton]
      intro pos' hpos'
      obtain ⟨hlt, hdet⟩ := pollLoop_found_inv caption ground interval maxPoll hpos
        0 t pos box hp
      exact ⟨t, box, hlt, by rw [hpos']; exact hdet⟩
  · intro t ht
    rw [run_live_mode, ht]

/-- Witness for C5 on a concrete screen history with a button at time 0. -/
theorem claim5_at_most_one_click_witness :
    (run_live_mode "Skip" groundAtZero 3 30 (by decide)).clicks.length ≤ 1 :=
  (claim5_at_most_one_click "Skip" groundAtZero 3 30 (by decide)).1

/-- Claim C6: every live-mode run returns within
`max_poll_seconds + interval + verification_delay` of idealized wall-clock
time, whether it ends by timeout or by detection and verification. -/
theorem claim6_termination_bound (caption : String)
    (ground : Nat → Except String GroundingOutput) (interval maxPoll : Nat)
    (hpos : 0 < interval) :
    (run_live_mode caption ground interval maxPoll hpos).endTime ≤
      maxPoll + interval + VERIFICATION_DELAY := by
  rw [run_live_mode]
  cases hp : pollLoop caption ground interval maxPoll hpos 0 with
  | timedOut t =>
    obtain ⟨-, hub⟩ := pollLoop_timedOut_inv caption ground interval maxPoll hpos
      0 t (by omega) hp
    simpa [VERIFICATION_DELAY] using by omega
  | found t pos box =>
    obtain ⟨hlt, -⟩ := pollLoop_found_inv caption ground interval maxPoll hpos
      0 t pos box hp
    simp only []
    omega

/-- Witness for C6 on a concrete screen history that never detects. -/
theorem claim6_termination_bound_witness :
    (run_live_mode "Skip" groundNever 3 30 (by decide)).endTime ≤
      30 + 3 + VERIFICATION_DELAY :=
  claim6_termination_bound "Skip" groundNever 3 30 (by decide)

/-- Claim C8: a live-mode run that times out returns status `"partial"`
with the time-limit message and no clicked coordinates; a run that detects
a button returns the clicked center, with status `"success"` exactly when
the post-click re-detection (after the fixed delay) finds nothing, and
status `"partial"` with the advisory message otherwise. -/
theorem claim8_result_classification (caption : String)
    (ground : Nat → Except String GroundingOutput) (interval maxPoll : Nat)
    (hpos : 0 < interval) :
    (∀ t, pollLoop caption ground interval maxPoll hpos 0 = LoopExit.timedOut t →
      (run_live_mode caption ground interval maxPoll hpos).result =
        ⟨"partial", "No skip ad button detected within time limit. Try again?",
          none⟩) ∧
    (∀ t pos box,
      pollLoop caption ground interval maxPoll hpos 0 = LoopExit.found t pos box →
      (run_live_mode caption ground interval maxPoll hpos).result.clicked_at =
        some pos ∧
      ((run_live_mode caption ground interval maxPoll hpos).result.status =
          "success" ↔ detectAt caption ground (t + VERIFICATION_DELAY) = none) ∧
      (detectAt caption ground (t + VERIFICATION_DELAY) ≠ none →
        (run_live_mode caption ground interval maxPoll hpos).result.status =
          "partial" ∧
        (run_live_mode caption ground interval maxPoll hpos).result.message =
          "Clicked, but \x27Skip\x27 button may still be present—manual check needed.")) := by
  constructor
  · intro t ht
    rw [run_live_mode, ht]
  · intro t pos box hf
    rw [run_live_mode, hf]
    simp only [verify_skip_success, detectAt]
    cases hd : detect_skip_button caption (ground (t + VERIFICATION_DELAY)) with
    | none => simp [detectAt, hd]
    | some pb => simp [detectAt, hd]

/-- Witness for C8: the timeout branch on a never-detecting history. -/
theorem claim8_result_classification_witness :
    (run_live_mode "Skip" groundNever 3 4 (by decide)).result =
      ⟨"partial", "No skip ad button detected within time limit. Try again?",
        none⟩ :=
  (claim8_result_classification "Skip" groundNever 3 4 (by decide)).1 6
    (by simp [pollLoop, detectAt, detect_skip_button, groundNever])

/-! Helper lemmas about test mode. -/

/-- The record built for a file carries that file's path. -/
theorem testRecordFor_file (f : String) (d : Option ((Int × Int) × BBox)) :
    (testRecordFor f d).file = f := by
  rcases d with _ | ⟨pos, box⟩ <;> rfl

/-- The record's `detected` flag is exactly non-nullity of the detection. -/
theorem testRecordFor_detected (f : String) (d : Option ((Int × Int) × BBox)) :
    (testRecordFor f d).detected = d.isSome := by
  rcases d with _ | ⟨pos, box⟩ <;> rfl

/-- Claim C9: a test-mode run produces exactly one record per enumerated
image file (in enumeration order), each record names its file and its
`detected` flag is true exactly when the detection for that file is
non-null; the enumeration keeps only entries of the listed directory with
the two fixed extensions; and the aggregate message reports the count of
detected files over the total number of files. -/
theorem claim9_test_mode (caption : String)
    (groundFile : String → Except String GroundingOutput) (listing : List String) :
    (run_test_mode caption groundFile listing).1.length =
      (enumerateImageFiles listing).length ∧
    (∀ i (h : i < (run_test_mode caption groundFile listing).1.length)
        (h2 : i < (enumerateImageFiles listing).length),
      ((run_test_mode caption groundFile listing).1.get ⟨i, h⟩).file =
        (enumerateImageFiles listing).get ⟨i, h2⟩ ∧
      (((run_test_mode caption groundFile listing).1.get ⟨i, h⟩).detected = true ↔
        detect_skip_button caption
          (groundFile ((enumerateImageFiles listing).get ⟨i, h2⟩)) ≠ none)) ∧
    (∀ f ∈ enumerateImageFiles listing,
      f ∈ listing ∧
      (matchesGlob ".png".toList f || matchesGlob ".jpg".toList f) = true) ∧
    (run_test_mode caption groundFile listing).2.1 =
      ((enumerateImageFiles listing).filter
        (fun f => (detect_skip_button caption (groundFile f)).isSome)).length ∧
    (run_test_mode caption groundFile listing).2.2 =
      (enumerateImageFiles listing).length := by
  refine ⟨by simp [run_test_mode], ?_, ?_, ?_, by simp [run_test_mode]⟩
  · intro i h h2
    simp only [run_test_mode, List.get_eq_getElem, List.getElem_map]
    refine ⟨testRecordFor_file _ _, ?_⟩
    rw [testRecordFor_detected]
    rcases detect_skip_button caption
        (groundFile (enumerateImageFiles listing)[i]) with _ | d <;> simp
  · intro f hf
    rw [enumerateImageFiles, List.mem_append] at hf
    rcases hf with hf | hf <;> obtain ⟨hmem, hglob⟩ := List.mem_filter.mp hf
    · exact ⟨hmem, by rw [Bool.or_eq_true]; exact Or.inl hglob⟩
    · exact ⟨hmem, by rw [Bool.or_eq_true]; exact Or.inr hglob⟩
  · simp only [run_test_mode, List.filter_map, List.length_map]
    congr 1
    apply List.filter_congr
    intro f hf
    rw [Function.comp_apply, testRecordFor_detected]

/-- Witness for C9 on the three-image scenario: per-record file name and
the 2/3 aggregate count. -/
theorem claim9_test_mode_witness :
    ((run_test_mode "Skip" groundFileSample ["a.png", "b.png", "c.png"]).1.get
        ⟨0, by decide⟩).file =
      (enumerateImageFiles ["a.png", "b.png", "c.png"]).get ⟨0, by decide⟩ ∧
    (run_test_mode "Skip" groundFileSample ["a.png", "b.png", "c.png"]).2.1 =
      ((enumerateImageFiles ["a.png", "b.png", "c.png"]).filter
        (fun f => (detect_skip_button "Skip" (groundFileSample f)).isSome)).length :=
  ⟨((claim9_test_mode "Skip" groundFileSample ["a.png", "b.png", "c.png"]).2.1
      0 (by decide) (by decide)).1,
   (claim9_test_mode "Skip" groundFileSample ["a.png", "b.png", "c.png"]).2.2.2.1⟩

end AdDetector
